import Mathlib

/-!
Verification of the orchestration contract of the mouse-brain alignment
repository: the command-line driver `alignment_script_final.py` and the
pipeline-component wrappers in `xai_components/xai_volalign/components.py`.

The repository is thin adaptation around external libraries (bigstream,
VolAlign, zarr, numpy).  We embed the repository's own code shallowly:

* numeric literals that the driver merely constructs and passes through
  (voxel spacings, block sizes, overlap fractions) are modelled as exact
  rationals, since the orchestration code performs no arithmetic on them;
* external library calls are oracles: the world supplies their outcome
  (`Except String _`), and the driver/component code decides what is
  dispatched, logged, written and re-raised;
* the driver is straight-line Python, so `main` is a pure function from
  the parsed arguments and the world to the trace of externally visible
  events together with the uncaught exception, if any.
-/

/-- A cluster configuration dictionary as built twice in
`alignment_script_final.py` (lines 40-53 and 87-100): worker count,
threads per worker, memory limit, and the
`distributed.nanny.pre-spawn-environ` environment overrides plus the
`distributed.scheduler.worker-ttl` entry. -/
structure ClusterConfig where
  n_workers : Nat
  threads_per_worker : Nat
  memory_limit : String
  MALLOC_TRIM_THRESHOLD_ : Nat
  MKL_NUM_THREADS : Nat
  OMP_NUM_THREADS : Nat
  OPENBLAS_NUM_THREADS : Nat
  worker_ttl : Option Nat
  deriving DecidableEq, Repr

/-- The keyword dictionary `deform_kwargs` built at lines 59-64 of the
driver.  `smooth_sigmas` is the tuple `(0,)` and `control_point_levels`
is the tuple `(1,)`. -/
structure DeformKwargs where
  alignment_spacing : Rat
  smooth_sigmas : List Rat
  control_point_spacing : Rat
  control_point_levels : List Nat
  deriving DecidableEq, Repr

/-- A matrix as loaded by `np.loadtxt`: a list of rows of numbers. -/
abbrev Mat := List (List Rat)

/-- Content of the file passed as `--init_transform_path`.  `np.loadtxt`
raises on a file it cannot parse as numbers (`malformed`) and on a
numeric file whose rows have differing lengths; any rectangular numeric
table (square or not) loads successfully. -/
inductive TxtFile where
  | malformed : String → TxtFile
  | table : Mat → TxtFile
  deriving DecidableEq, Repr

/-- `np.loadtxt` as used at line 56 of the driver: fails with an
exception on unparseable content or ragged rows, and otherwise returns
the numeric table unchanged, with no shape validation whatsoever. -/
def loadtxt : TxtFile → Except String Mat
  | .malformed s => .error ("could not convert string to float: " ++ s)
  | .table rows =>
      if rows.all (fun r => r.length = (rows.headD []).length) then .ok rows
      else .error "Wrong number of columns"

/-- A transform entry of the `transform_list` argument of
`distributed_apply_transform`: either the global affine matrix loaded
from the text file, or the deformation-field zarr array returned by the
piecewise stage (identified by the path it was written to). -/
inductive Transform where
  | affineMat : Mat → Transform
  | deformField : String → Transform
  deriving DecidableEq, Repr

/-- The parsed command-line arguments of the driver (lines 15-35). -/
structure Args where
  fix_image_path : String
  move_image_path : String
  spacing : List Rat
  blocksize : List Int
  init_transform_path : String
  output_dir : String
  output_name : String
  deriving DecidableEq, Repr

/-- A raw command line: for `--spacing` (nargs=3, type=float) and
`--blocksize` (nargs=3, type=int), `none` means the flag was omitted and
the argparse default applies; `some` carries the exactly three values
argparse accepts for the flag. -/
structure CmdLine where
  fix_image_path : String
  move_image_path : String
  spacing : Option (Rat × Rat × Rat)
  blocksize : Option (Int × Int × Int)
  init_transform_path : String
  output_dir : String
  output_name : String
  deriving DecidableEq, Repr

/-- The argparse default of `--spacing` (line 18):
`[0.1507417, 0.1507417, 0.1507417]`. -/
def spacing_default : List Rat := [0.1507417, 0.1507417, 0.1507417]

/-- The argparse default of `--blocksize` (line 19): `[512, 512, 512]`. -/
def blocksize_default : List Int := [512, 512, 512]

/-- `parser.parse_args()` followed by the variable assignments at lines
29-35: each omitted flag is replaced by its declared default. -/
def parse_args (c : CmdLine) : Args where
  fix_image_path := c.fix_image_path
  move_image_path := c.move_image_path
  spacing := match c.spacing with
    | some (a, b, cc) => [a, b, cc]
    | none => spacing_default
  blocksize := match c.blocksize with
    | some (a, b, cc) => [a, b, cc]
    | none => blocksize_default
  init_transform_path := c.init_transform_path
  output_dir := c.output_dir
  output_name := c.output_name

/-- The first `cluster_config` dictionary (lines 40-53), passed to the
piecewise alignment stage. -/
def cluster_config_piecewise : ClusterConfig where
  n_workers := 16
  threads_per_worker := 1
  memory_limit := "70GB"
  MALLOC_TRIM_THRESHOLD_ := 65536
  MKL_NUM_THREADS := 6
  OMP_NUM_THREADS := 6
  OPENBLAS_NUM_THREADS := 6
  worker_ttl := none

/-- The second `cluster_config` dictionary (lines 87-100), passed to the
transform-application stage. -/
def cluster_config_apply : ClusterConfig where
  n_workers := 8
  threads_per_worker := 1
  memory_limit := "140GB"
  MALLOC_TRIM_THRESHOLD_ := 65536
  MKL_NUM_THREADS := 6
  OMP_NUM_THREADS := 6
  OPENBLAS_NUM_THREADS := 6
  worker_ttl := none

/-- `deform_kwargs` (lines 59-64). -/
def deform_kwargs : DeformKwargs where
  alignment_spacing := 0.4
  smooth_sigmas := [0]
  control_point_spacing := 100.0
  control_point_levels := [1]

/-- `steps = [('deform', deform_kwargs)]` (line 68). -/
def steps : List (String × DeformKwargs) := [("deform", deform_kwargs)]

/-- The f-string at line 78 of the driver. -/
def deformPath (args : Args) : String :=
  args.output_dir ++ "/" ++ args.output_name ++ "_deformation_field.zarr"

/-- The f-string at line 107 of the driver. -/
def alignedPath (args : Args) : String :=
  args.output_dir ++ "/" ++ args.output_name ++ "_aligned_round.zarr"

/-- The argument record of the call to
`distributed_piecewise_alignment_pipeline` (lines 71-81). -/
structure PiecewiseCall where
  fix : String
  move : String
  fix_spacing : List Rat
  mov_spacing : List Rat
  steps : List (String × DeformKwargs)
  blocksize : List Int
  overlap : Rat
  rebalance_for_missing_neighbors : Bool
  write_path : String
  static_transform_list : List Mat
  cluster_kwargs : ClusterConfig
  deriving DecidableEq, Repr

/-- The argument record of the call to `distributed_apply_transform`
(lines 102-109). -/
structure ApplyCall where
  fix : String
  move : String
  fix_spacing : List Rat
  mov_spacing : List Rat
  transform_list : List Transform
  blocksize : List Int
  write_path : String
  cluster_kwargs : ClusterConfig
  deriving DecidableEq, Repr

/-- The arguments the driver builds for
`distributed_piecewise_alignment_pipeline` (lines 71-81), given the
parsed args and the affine loaded from `--init_transform_path`. -/
def piecewise_call (args : Args) (affine : Mat) : PiecewiseCall where
  fix := args.fix_image_path
  move := args.move_image_path
  fix_spacing := args.spacing
  mov_spacing := args.spacing
  steps := steps
  blocksize := args.blocksize
  overlap := 0.3
  rebalance_for_missing_neighbors := true
  write_path := deformPath args
  static_transform_list := [affine]
  cluster_kwargs := cluster_config_piecewise

/-- The arguments the driver builds for `distributed_apply_transform`
(lines 102-109): the transform list is literally `[affine, deform]`,
where `deform` is the zarr array the piecewise stage returned (stored at
`deformPath args`). -/
def apply_call (args : Args) (affine : Mat) : ApplyCall where
  fix := args.fix_image_path
  move := args.move_image_path
  fix_spacing := args.spacing
  mov_spacing := args.spacing
  transform_list := [.affineMat affine, .deformField (deformPath args)]
  blocksize := args.blocksize
  write_path := alignedPath args
  cluster_kwargs := cluster_config_apply

/-- An externally visible event of a driver run. -/
inductive Event where
  | zarrOpen (path : String) (mode : String)
  | loadtxtRead (path : String)
  | piecewise (c : PiecewiseCall)
  | applyTransform (c : ApplyCall)
  | printed (s : String)
  deriving DecidableEq, Repr

/-- The environment of one driver run: the content of the initial
transform file, and the outcomes the two external distributed stages
would produce if dispatched. -/
structure World where
  initMatrixFile : TxtFile
  piecewiseResult : Except String Unit
  applyResult : Except String Unit
  deriving Repr

/-- The driver's `main` (lines 11-109) after argument parsing: opens the
two input volumes read-only, loads the affine with `np.loadtxt`,
dispatches the piecewise alignment, prints `deform done`, and dispatches
the transform application.  There is no `try`/`except` anywhere in the
script: the first exception propagates and terminates the run.  Returns
the trace of events together with the uncaught exception, if any. -/
def Driver.main (args : Args) (w : World) : List Event × Option String :=
  let ev0 : List Event :=
    [.zarrOpen args.fix_image_path "r", .zarrOpen args.move_image_path "r"]
  let ev1 : List Event := ev0 ++ [.loadtxtRead args.init_transform_path]
  match loadtxt w.initMatrixFile with
  | .error e => (ev1, some e)
  | .ok affine =>
    let pc := piecewise_call args affine
    match w.piecewiseResult with
    | .error e => (ev1 ++ [.piecewise pc], some e)
    | .ok _ =>
      let ev2 : List Event := ev1 ++ [.piecewise pc, .printed "deform done"]
      let ac := apply_call args affine
      match w.applyResult with
      | .error e => (ev2 ++ [.applyTransform ac], some e)
      | .ok _ => (ev2 ++ [.applyTransform ac], none)

/-- The write paths handed to the external library calls of a trace, in
order. -/
def writePaths (es : List Event) : List String :=
  es.filterMap fun e => match e with
    | .piecewise c => some c.write_path
    | .applyTransform c => some c.write_path
    | _ => none

/-- The `(path, mode)` pairs of the `zarr.open` calls of a trace. -/
def zarrOpens (es : List Event) : List (String × String) :=
  es.filterMap fun e => match e with
    | .zarrOpen p m => some (p, m)
    | _ => none

/-- The strings the driver printed during a trace. -/
def printedLogs (es : List Event) : List String :=
  es.filterMap fun e => match e with
    | .printed s => some s
    | _ => none

/-- The distributed dispatches of a trace: `true` entries are piecewise
alignment dispatches, `false` entries transform-application dispatches. -/
def dispatches (es : List Event) : List Bool :=
  es.filterMap fun e => match e with
    | .piecewise _ => some true
    | .applyTransform _ => some false
    | _ => none

/-!
Embedding of `xai_components/xai_volalign/components.py`.

Each component's `execute` is synchronous straight-line Python: read the
input-port values, invoke one VolAlign library function inside
`try`/`except`, on success optionally assign the single output port and
print a success message, on failure print the error and `raise` again.
The library function itself is external (out of scope), so its outcome
is an oracle argument `call : Except String _`; the input-port values
that feed the component's own observable behaviour (its log messages)
are explicit arguments.  Components whose class declares no output port
are given port type `Empty`, so no port value can ever be populated.
-/

/-- Observable result of one `execute` call: the lines it printed, the
final value of the component's output port (starting from the port's
value before the call), and the exception it re-raised, if any. -/
structure ExecOutcome (α : Type) where
  logs : List String
  port : Option α
  raised : Option String
  deriving Repr

/-- `CreateBDVXML.execute` (components.py lines 41-65). -/
def CreateBDVXML.execute (tiles_folder : String)
    (call : Except String Unit) : ExecOutcome Empty :=
  match call with
  | .ok _ =>
      ⟨["BDV/XML file successfully created in " ++ tiles_folder], none, none⟩
  | .error e => ⟨["Error during BDV/XML creation: " ++ e], none, some e⟩

/-- `StitchTiles.execute` (components.py lines 91-100). -/
def StitchTiles.execute (xml_file_path fiji_path : String)
    (call : Except String Unit) : ExecOutcome Empty :=
  match call with
  | .ok _ =>
      ⟨["Tile stitching executed successfully using XML: " ++ xml_file_path
          ++ " and Fiji: " ++ fiji_path], none, none⟩
  | .error e => ⟨["Error during tile stitching: " ++ e], none, some e⟩

/-- `BlendTiles.execute` (components.py lines 135-151); its success
branch prints nothing. -/
def BlendTiles.execute (call : Except String Unit) : ExecOutcome Empty :=
  match call with
  | .ok _ => ⟨[], none, none⟩
  | .error e => ⟨["Error during tile blending: " ++ e], none, some e⟩

/-- `VoxelSpacingResample.execute` (components.py lines 186-203). -/
def VoxelSpacingResample.execute (output_path : String)
    (call : Except String Unit) : ExecOutcome Empty :=
  match call with
  | .ok _ =>
      ⟨["Resampling completed. Resampled image saved to " ++ output_path],
        none, none⟩
  | .error e =>
      ⟨["Error during voxel spacing resampling: " ++ e], none, some e⟩

/-- `ApplyManualAlignment.execute` (components.py lines 236-254). -/
def ApplyManualAlignment.execute (call : Except String Unit) :
    ExecOutcome Empty :=
  match call with
  | .ok _ => ⟨["Alignment applied successfully."], none, none⟩
  | .error e => ⟨["Error during alignment: " ++ e], none, some e⟩

/-- `LinearAlignmentTuning.execute` (components.py lines 294-315): the
`affine_matrix` output port is assigned only after
`linear_alignment_tuning` returns; on an exception the port keeps the
value `port0` it held before the call (initially unset), the error is
printed, and the exception is re-raised. -/
def LinearAlignmentTuning.execute {α : Type} (port0 : Option α)
    (output_matrix_file : String) (call : Except String α) :
    ExecOutcome α :=
  match call with
  | .ok result =>
      ⟨["Affine transformation matrix computed and saved to "
          ++ output_matrix_file], some result, none⟩
  | .error e =>
      ⟨["Error during linear alignment tuning: " ++ e], port0, some e⟩

/-- `ConvertZarrToTiff.execute` (components.py lines 337-345). -/
def ConvertZarrToTiff.execute (zarr_file tiff_file : String)
    (call : Except String Unit) : ExecOutcome Empty :=
  match call with
  | .ok _ =>
      ⟨["Converted Zarr file " ++ zarr_file ++ " to TIFF file " ++ tiff_file],
        none, none⟩
  | .error e => ⟨["Error in convert_zarr_to_tiff: " ++ e], none, some e⟩

/-- `ConvertTiffToZarr.execute` (components.py lines 367-375). -/
def ConvertTiffToZarr.execute (tiff_file zarr_file : String)
    (call : Except String Unit) : ExecOutcome Empty :=
  match call with
  | .ok _ =>
      ⟨["Converted TIFF file " ++ tiff_file ++ " to Zarr file " ++ zarr_file],
        none, none⟩
  | .error e => ⟨["Error in convert_tiff_to_zarr: " ++ e], none, some e⟩

/-- `DownsampleTiff.execute` (components.py lines 401-411). -/
def DownsampleTiff.execute (input_path output_path : String)
    (call : Except String Unit) : ExecOutcome Empty :=
  match call with
  | .ok _ =>
      ⟨["Downsampled TIFF from " ++ input_path ++ " and saved to "
          ++ output_path], none, none⟩
  | .error e => ⟨["Error in downsample_tiff: " ++ e], none, some e⟩

/-- `StackTiffImages.execute` (components.py lines 434-443). -/
def StackTiffImages.execute (file1 file2 output_file : String)
    (call : Except String Unit) : ExecOutcome Empty :=
  match call with
  | .ok _ =>
      ⟨["Stacked TIFF images from " ++ file1 ++ " and " ++ file2
          ++ " and saved to " ++ output_file], none, none⟩
  | .error e => ⟨["Error in stack_tiff_images: " ++ e], none, some e⟩

/-- `ReorientVolume.execute` (components.py lines 470-481): the
`reoriented_volume` output port is assigned only after
`reorient_volume_and_save_tiff` returns; on an exception the port keeps
its previous value `port0`, the error is printed, and the exception is
re-raised. -/
def ReorientVolume.execute {α : Type} (port0 : Option α)
    (input_path output_path : String) (call : Except String α) :
    ExecOutcome α :=
  match call with
  | .ok result =>
      ⟨["Reoriented volume from " ++ input_path ++ " saved to "
          ++ output_path], some result, none⟩
  | .error e =>
      ⟨["Error in reorient_volume_and_save_tiff: " ++ e], port0, some e⟩

/-! Concrete inputs used to instantiate the theorems below. -/

/-- A concrete parsed command line. -/
def exArgs : Args where
  fix_image_path := "fix.zarr"
  move_image_path := "move.zarr"
  spacing := [1, 1, 1]
  blocksize := [64, 64, 64]
  init_transform_path := "affine.txt"
  output_dir := "out"
  output_name := "run1"

/-- A world in which the matrix file is a square table and both
distributed stages succeed. -/
def exWorldOk : World := ⟨.table [[1, 0], [0, 1]], .ok (), .ok ()⟩

/-- A world in which the piecewise alignment stage raises. -/
def exWorldPiecewiseFail : World := ⟨.table [[1, 0], [0, 1]], .error "boom", .ok ()⟩

/-- A world in which the transform-application stage raises. -/
def exWorldApplyFail : World := ⟨.table [[1, 0], [0, 1]], .ok (), .error "oom"⟩

/-- A world in which the matrix file is unparseable. -/
def exWorldBadFile : World := ⟨.malformed "abc", .ok (), .ok ()⟩

/-- A world in which the matrix file holds a well-formed but non-square
(2 x 3) table and both stages succeed. -/
def exWorldNonsquare : World := ⟨.table [[1, 0, 0], [0, 1, 0]], .ok (), .ok ()⟩

/-! Helper lemmas: the four possible shapes of a driver run. -/

/-- If `np.loadtxt` raises, the run stops before any dispatch. -/
theorem main_err_load (args : Args) (w : World) (e : String)
    (h : loadtxt w.initMatrixFile = .error e) :
    Driver.main args w =
      ([.zarrOpen args.fix_image_path "r",
        .zarrOpen args.move_image_path "r",
        .loadtxtRead args.init_transform_path], some e) := by
  simp [Driver.main, h]

/-- If the piecewise stage raises, the run stops there. -/
theorem main_err_piecewise (args : Args) (w : World) (A : Mat) (e : String)
    (h1 : loadtxt w.initMatrixFile = .ok A)
    (h2 : w.piecewiseResult = .error e) :
    Driver.main args w =
      ([.zarrOpen args.fix_image_path "r",
        .zarrOpen args.move_image_path "r",
        .loadtxtRead args.init_transform_path,
        .piecewise (piecewise_call args A)], some e) := by
  simp [Driver.main, h1, h2]

/-- If the transform-application stage raises, the run stops there. -/
theorem main_err_apply (args : Args) (w : World) (A : Mat) (e : String)
    (h1 : loadtxt w.initMatrixFile = .ok A)
    (h2 : w.piecewiseResult = .ok ())
    (h3 : w.applyResult = .error e) :
    Driver.main args w =
      ([.zarrOpen args.fix_image_path "r",
        .zarrOpen args.move_image_path "r",
        .loadtxtRead args.init_transform_path,
        .piecewise (piecewise_call args A),
        .printed "deform done",
        .applyTransform (apply_call args A)], some e) := by
  simp [Driver.main, h1, h2, h3]

/-- A fully successful run. -/
theorem main_ok (args : Args) (w : World) (A : Mat)
    (h1 : loadtxt w.initMatrixFile = .ok A)
    (h2 : w.piecewiseResult = .ok ())
    (h3 : w.applyResult = .ok ()) :
    Driver.main args w =
      ([.zarrOpen args.fix_image_path "r",
        .zarrOpen args.move_image_path "r",
        .loadtxtRead args.init_transform_path,
        .piecewise (piecewise_call args A),
        .printed "deform done",
        .applyTransform (apply_call args A)], none) := by
  simp [Driver.main, h1, h2, h3]

/-- The two output paths always differ (their suffixes have different
lengths). -/
theorem deformPath_ne_alignedPath (args : Args) :
    deformPath args ≠ alignedPath args := by
  intro h
  have h1 : ("_deformation_field.zarr" : String).length = 23 := rfl
  have h2 : ("_aligned_round.zarr" : String).length = 19 := rfl
  have hl := congrArg String.length h
  simp only [deformPath, alignedPath, String.length_append, h1, h2] at hl
  omega

/-- C1: every driver run passes at most — and every complete run passes
exactly — the two write paths `{output_dir}/{output_name}_deformation_field.zarr`
(to the distributed piecewise alignment call) and
`{output_dir}/{output_name}_aligned_round.zarr` (to the distributed
transform-application call), in that order, and no other write path is
ever handed to the external library calls. -/
theorem driver_write_paths (args : Args) (w : World) :
    (writePaths (Driver.main args w).1).Sublist
      [deformPath args, alignedPath args] ∧
    (∀ A : Mat, loadtxt w.initMatrixFile = .ok A →
      w.piecewiseResult = .ok () → w.applyResult = .ok () →
      writePaths (Driver.main args w).1
        = [deformPath args, alignedPath args]) := by
  constructor
  · cases hL : loadtxt w.initMatrixFile with
    | error e =>
      rw [main_err_load args w e hL]
      simp [writePaths]
    | ok A =>
      cases hP : w.piecewiseResult with
      | error e =>
        rw [main_err_piecewise args w A e hL hP]
        simp [writePaths, piecewise_call]
      | ok u =>
        cases u
        cases hA : w.applyResult with
        | error e =>
          rw [main_err_apply args w A e hL hP hA]
          simp [writePaths, piecewise_call, apply_call]
        | ok v =>
          cases v
          rw [main_ok args w A hL hP hA]
          simp [writePaths, piecewise_call, apply_call]
  · intro A h1 h2 h3
    rw [main_ok args w A h1 h2 h3]
    simp [writePaths, piecewise_call, apply_call]

/-- Witness for C1: a complete concrete run writes exactly the two
expected paths. -/
theorem driver_write_paths_witness :
    writePaths (Driver.main exArgs exWorldOk).1
      = [deformPath exArgs, alignedPath exArgs] :=
  (driver_write_paths exArgs exWorldOk).2 [[1, 0], [0, 1]] rfl rfl rfl

/-- C2 counterexample: in a concrete run whose piecewise alignment call
raises "boom", the driver dispatches the call, the exception propagates
and terminates the run, yet the driver prints nothing at all — so the
call is not wrapped in a try/except that logs the error. -/
theorem driver_no_error_logging_cex :
    dispatches (Driver.main exArgs exWorldPiecewiseFail).1 = [true] ∧
    (Driver.main exArgs exWorldPiecewiseFail).2 = some "boom" ∧
    printedLogs (Driver.main exArgs exWorldPiecewiseFail).1 = [] :=
  ⟨rfl, rfl, rfl⟩

/-- C2 amended: the driver wraps none of its library calls in
try/except — a failure of `np.loadtxt` or of either distributed stage
propagates uncaught (terminating the run) and the driver emits no error
log; its only print is "deform done" after a successful piecewise
stage. -/
theorem driver_unwrapped_failures (args : Args) (w : World) (A : Mat)
    (e : String) :
    (loadtxt w.initMatrixFile = .error e →
      (Driver.main args w).2 = some e ∧
      printedLogs (Driver.main args w).1 = []) ∧
    (loadtxt w.initMatrixFile = .ok A → w.piecewiseResult = .error e →
      (Driver.main args w).2 = some e ∧
      printedLogs (Driver.main args w).1 = []) ∧
    (loadtxt w.initMatrixFile = .ok A → w.piecewiseResult = .ok () →
      w.applyResult = .error e →
      (Driver.main args w).2 = some e ∧
      printedLogs (Driver.main args w).1 = ["deform done"]) := by
  refine ⟨fun h => ?_, fun h1 h2 => ?_, fun h1 h2 h3 => ?_⟩
  · rw [main_err_load args w e h]
    simp [printedLogs]
  · rw [main_err_piecewise args w A e h1 h2]
    simp [printedLogs]
  · rw [main_err_apply args w A e h1 h2 h3]
    simp [printedLogs]

/-- Witness for the amended C2: a concrete run whose
transform-application stage raises "oom" terminates with that error
having printed only "deform done". -/
theorem driver_unwrapped_failures_witness :
    (Driver.main exArgs exWorldApplyFail).2 = some "oom" ∧
    printedLogs (Driver.main exArgs exWorldApplyFail).1 = ["deform done"] :=
  (driver_unwrapped_failures exArgs exWorldApplyFail [[1, 0], [0, 1]]
    "oom").2.2 rfl rfl rfl

/-- C4 counterexample: in the first cluster configuration the driver
builds, `threads_per_worker` is 1 but the math-library environment
overrides do not restrict numeric libraries to a single thread:
`MKL_NUM_THREADS` is 6. -/
theorem cluster_env_not_single_thread_cex :
    cluster_config_piecewise.threads_per_worker = 1 ∧
    cluster_config_piecewise.MKL_NUM_THREADS = 6 ∧
    ¬ (cluster_config_piecewise.MKL_NUM_THREADS = 1 ∧
       cluster_config_piecewise.OMP_NUM_THREADS = 1 ∧
       cluster_config_piecewise.OPENBLAS_NUM_THREADS = 1) := by
  refine ⟨rfl, rfl, ?_⟩
  intro h
  exact absurd h.1 (by decide)

/-- C4 amended: both cluster configurations the driver builds (and
passes to the two distributed stages) set `threads_per_worker` to 1,
but their environment overrides set `MKL_NUM_THREADS`,
`OMP_NUM_THREADS` and `OPENBLAS_NUM_THREADS` to 6 — allowing each
worker's numeric libraries up to six threads, not one. -/
theorem cluster_config_threads (args : Args) (A : Mat) :
    (piecewise_call args A).cluster_kwargs = cluster_config_piecewise ∧
    (apply_call args A).cluster_kwargs = cluster_config_apply ∧
    cluster_config_piecewise.threads_per_worker = 1 ∧
    cluster_config_apply.threads_per_worker = 1 ∧
    cluster_config_piecewise.MKL_NUM_THREADS = 6 ∧
    cluster_config_piecewise.OMP_NUM_THREADS = 6 ∧
    cluster_config_piecewise.OPENBLAS_NUM_THREADS = 6 ∧
    cluster_config_apply.MKL_NUM_THREADS = 6 ∧
    cluster_config_apply.OMP_NUM_THREADS = 6 ∧
    cluster_config_apply.OPENBLAS_NUM_THREADS = 6 :=
  ⟨rfl, rfl, rfl, rfl, rfl, rfl, rfl, rfl, rfl, rfl⟩

/-- Witness for the amended C4 at concrete inputs. -/
theorem cluster_config_threads_witness :
    cluster_config_piecewise.threads_per_worker = 1 ∧
    cluster_config_piecewise.MKL_NUM_THREADS = 6 :=
  ⟨(cluster_config_threads exArgs [[1, 0], [0, 1]]).2.2.1,
   (cluster_config_threads exArgs [[1, 0], [0, 1]]).2.2.2.2.1⟩

/-- C3: every wrapped pipeline component's `execute` re-raises the
library exception after logging it and leaves its output port
unpopulated: `LinearAlignmentTuning` assigns `affine_matrix` and
`ReorientVolume` assigns `reoriented_volume` only when the library call
returns successfully, so on failure the port still holds its prior
(initially unset) value `port0`; the nine components with no output
port likewise re-raise, and their port (of type `Empty`) can never be
populated. -/
theorem components_error_contract {α : Type} (port0 : Option α)
    (s1 s2 s3 : String) (e : String) (r : α) :
    (LinearAlignmentTuning.execute port0 s1 (.error e)).port = port0 ∧
    (LinearAlignmentTuning.execute port0 s1 (.error e)).raised = some e ∧
    (LinearAlignmentTuning.execute port0 s1 (.error e)).logs
      = ["Error during linear alignment tuning: " ++ e] ∧
    (LinearAlignmentTuning.execute port0 s1 (.ok r)).port = some r ∧
    (LinearAlignmentTuning.execute port0 s1 (.ok r)).raised = none ∧
    (ReorientVolume.execute port0 s1 s2 (.error e)).port = port0 ∧
    (ReorientVolume.execute port0 s1 s2 (.error e)).raised = some e ∧
    (ReorientVolume.execute port0 s1 s2 (.error e)).logs
      = ["Error in reorient_volume_and_save_tiff: " ++ e] ∧
    (ReorientVolume.execute port0 s1 s2 (.ok r)).port = some r ∧
    (ReorientVolume.execute port0 s1 s2 (.ok r)).raised = none ∧
    (CreateBDVXML.execute s1 (.error e)).raised = some e ∧
    (CreateBDVXML.execute s1 (.error e)).port = none ∧
    (StitchTiles.execute s1 s2 (.error e)).raised = some e ∧
    (StitchTiles.execute s1 s2 (.error e)).port = none ∧
    (BlendTiles.execute (.error e)).raised = some e ∧
    (VoxelSpacingResample.execute s1 (.error e)).raised = some e ∧
    (ApplyManualAlignment.execute (.error e)).raised = some e ∧
    (ConvertZarrToTiff.execute s1 s2 (.error e)).raised = some e ∧
    (ConvertTiffToZarr.execute s1 s2 (.error e)).raised = some e ∧
    (DownsampleTiff.execute s1 s2 (.error e)).raised = some e ∧
    (StackTiffImages.execute s1 s2 s3 (.error e)).raised = some e :=
  ⟨rfl, rfl, rfl, rfl, rfl, rfl, rfl, rfl, rfl, rfl, rfl,
   rfl, rfl, rfl, rfl, rfl, rfl, rfl, rfl, rfl, rfl⟩

/-- Witness for C3 at concrete inputs: a failing
`linear_alignment_tuning` call leaves the `affine_matrix` port unset. -/
theorem components_error_contract_witness :
    (LinearAlignmentTuning.execute (none : Option Nat) "m.txt"
      (.error "bad")).port = none ∧
    (ReorientVolume.execute (none : Option Nat) "in.tif" "out.tif"
      (.error "bad")).port = none :=
  ⟨(@components_error_contract Nat none "m.txt" "in.tif" "x" "bad" 7).1,
   (@components_error_contract Nat none "in.tif" "out.tif" "x" "bad" 7).2.2.2.2.2.1⟩

/-- C5 counterexample: with a well-formed but non-square (2 x 3) matrix
file, `np.loadtxt` succeeds, the run never fails, and both distributed
stages are dispatched — the run does not fail fast before distributed
work. -/
theorem nonsquare_matrix_dispatch_cex :
    loadtxt exWorldNonsquare.initMatrixFile = .ok [[1, 0, 0], [0, 1, 0]] ∧
    (Driver.main exArgs exWorldNonsquare).2 = none ∧
    dispatches (Driver.main exArgs exWorldNonsquare).1 = [true, false] :=
  ⟨rfl, rfl, rfl⟩

/-- C5 amended: a malformed matrix file — one `np.loadtxt` cannot parse,
including a ragged table — makes the run fail during transform loading,
before any distributed work is dispatched; a well-formed non-square
matrix, however, loads without error and distributed work proceeds. -/
theorem malformed_matrix_fail_fast (args : Args) (w : World) (e : String)
    (h : loadtxt w.initMatrixFile = .error e) :
    (Driver.main args w).2 = some e ∧
    dispatches (Driver.main args w).1 = [] := by
  rw [main_err_load args w e h]
  exact ⟨rfl, rfl⟩

/-- Witness for the amended C5: an unparseable matrix file aborts a
concrete run before any dispatch. -/
theorem malformed_matrix_fail_fast_witness :
    (Driver.main exArgs exWorldBadFile).2
      = some "could not convert string to float: abc" ∧
    dispatches (Driver.main exArgs exWorldBadFile).1 = [] :=
  malformed_matrix_fail_fast exArgs exWorldBadFile
    "could not convert string to float: abc" rfl

/-- C6: the transform list of the transform-application call is exactly
`[affine, deform]` — the affine loaded from `--init_transform_path`
first, then the deformation field written by the piecewise stage — and
the piecewise call receives that same affine as its sole static
transform; in every complete run both dispatched calls carry exactly
these lists with the affine `np.loadtxt` returned. -/
theorem transform_list_order (args : Args) (A : Mat) (w : World) :
    (apply_call args A).transform_list
      = [Transform.affineMat A, Transform.deformField (deformPath args)] ∧
    (piecewise_call args A).static_transform_list = [A] ∧
    (loadtxt w.initMatrixFile = .ok A → w.piecewiseResult = .ok () →
      w.applyResult = .ok () →
      Event.applyTransform (apply_call args A) ∈ (Driver.main args w).1 ∧
      Event.piecewise (piecewise_call args A) ∈ (Driver.main args w).1) := by
  refine ⟨rfl, rfl, fun h1 h2 h3 => ?_⟩
  rw [main_ok args w A h1 h2 h3]
  exact ⟨by simp, by simp⟩

/-- Witness for C6: the concrete complete run dispatches both calls
with the loaded affine. -/
theorem transform_list_order_witness :
    Event.applyTransform (apply_call exArgs [[1, 0], [0, 1]])
      ∈ (Driver.main exArgs exWorldOk).1 ∧
    Event.piecewise (piecewise_call exArgs [[1, 0], [0, 1]])
      ∈ (Driver.main exArgs exWorldOk).1 :=
  (transform_list_order exArgs [[1, 0], [0, 1]] exWorldOk).2.2 rfl rfl rfl

/-- C7: the CLI defaults of `--spacing` and `--blocksize` are
`[0.1507417, 0.1507417, 0.1507417]` (three floats) and `[512, 512, 512]`
(three ints), and an invocation omitting both flags uses exactly these
values for spacing and block size in both distributed stages. -/
theorem cli_defaults (c : CmdLine) (A : Mat)
    (hs : c.spacing = none) (hb : c.blocksize = none) :
    (parse_args c).spacing = [0.1507417, 0.1507417, 0.1507417] ∧
    (parse_args c).blocksize = [512, 512, 512] ∧
    (piecewise_call (parse_args c) A).fix_spacing = spacing_default ∧
    (piecewise_call (parse_args c) A).mov_spacing = spacing_default ∧
    (piecewise_call (parse_args c) A).blocksize = blocksize_default ∧
    (apply_call (parse_args c) A).fix_spacing = spacing_default ∧
    (apply_call (parse_args c) A).mov_spacing = spacing_default ∧
    (apply_call (parse_args c) A).blocksize = blocksize_default := by
  refine ⟨?_, ?_, ?_, ?_, ?_, ?_, ?_, ?_⟩ <;>
    simp [parse_args, piecewise_call, apply_call, hs, hb,
      spacing_default, blocksize_default]

/-- Witness for C7: a concrete command line omitting both flags. -/
theorem cli_defaults_witness :
    (parse_args ⟨"f.zarr", "m.zarr", none, none, "a.txt", "o", "n"⟩).spacing
      = [0.1507417, 0.1507417, 0.1507417] ∧
    (parse_args ⟨"f.zarr", "m.zarr", none, none, "a.txt", "o", "n"⟩).blocksize
      = [512, 512, 512] :=
  ⟨(cli_defaults ⟨"f.zarr", "m.zarr", none, none, "a.txt", "o", "n"⟩
      [[1, 0], [0, 1]] rfl rfl).1,
   (cli_defaults ⟨"f.zarr", "m.zarr", none, none, "a.txt", "o", "n"⟩
      [[1, 0], [0, 1]] rfl rfl).2.1⟩

/-- In every run, the write paths handed to the library calls form a
sublist of the two output paths: each is written at most once, in
order, and nothing else is written. -/
theorem writePaths_run_sublist (args : Args) (w : World) :
    (writePaths (Driver.main args w).1).Sublist
      [deformPath args, alignedPath args] := by
  cases hL : loadtxt w.initMatrixFile with
  | error e =>
    rw [main_err_load args w e hL]
    simp [writePaths]
  | ok A =>
    cases hP : w.piecewiseResult with
    | error e =>
      rw [main_err_piecewise args w A e hL hP]
      simp [writePaths, piecewise_call]
    | ok u =>
      cases u
      cases hA : w.applyResult with
      | error e =>
        rw [main_err_apply args w A e hL hP hA]
        simp [writePaths, piecewise_call, apply_call]
      | ok v =>
        cases v
        rw [main_ok args w A hL hP hA]
        simp [writePaths, piecewise_call, apply_call]

/-- C8: the driver opens both input volumes with `zarr.open(..., mode='r')`
and never writes to them (every write path handed to the libraries is
one of the two distinct output paths, each at most once); in a complete
run each output path is written exactly once, by the call that creates
it, and no later event touches it. -/
theorem volume_ownership (args : Args) (w : World) :
    zarrOpens (Driver.main args w).1
      = [(args.fix_image_path, "r"), (args.move_image_path, "r")] ∧
    deformPath args ≠ alignedPath args ∧
    (∀ p : String, (writePaths (Driver.main args w).1).count p ≤ 1) ∧
    (∀ A : Mat, loadtxt w.initMatrixFile = .ok A →
      w.piecewiseResult = .ok () → w.applyResult = .ok () →
      writePaths (Driver.main args w).1
        = [deformPath args, alignedPath args]) := by
  refine ⟨?_, deformPath_ne_alignedPath args, fun p => ?_, fun A h1 h2 h3 => ?_⟩
  · cases hL : loadtxt w.initMatrixFile with
    | error e =>
      rw [main_err_load args w e hL]
      simp [zarrOpens]
    | ok A =>
      cases hP : w.piecewiseResult with
      | error e =>
        rw [main_err_piecewise args w A e hL hP]
        simp [zarrOpens]
      | ok u =>
        cases u
        cases hA : w.applyResult with
        | error e =>
          rw [main_err_apply args w A e hL hP hA]
          simp [zarrOpens]
        | ok v =>
          cases v
          rw [main_ok args w A hL hP hA]
          simp [zarrOpens]
  · have hs := writePaths_run_sublist args w
    have hnd : ([deformPath args, alignedPath args]).Nodup := by
      simp [deformPath_ne_alignedPath args]
    exact le_trans (hs.count_le p) (List.nodup_iff_count_le_one.mp hnd p)
  · rw [main_ok args w A h1 h2 h3]
    simp [writePaths, piecewise_call, apply_call]

/-- Witness for C8: the concrete complete run opens the inputs
read-only and writes each output exactly once. -/
theorem volume_ownership_witness :
    zarrOpens (Driver.main exArgs exWorldOk).1
      = [("fix.zarr", "r"), ("move.zarr", "r")] ∧
    writePaths (Driver.main exArgs exWorldOk).1
      = [deformPath exArgs, alignedPath exArgs] :=
  ⟨(volume_ownership exArgs exWorldOk).1,
   (volume_ownership exArgs exWorldOk).2.2.2 [[1, 0], [0, 1]] rfl rfl rfl⟩

/-- C9: for every parsed command line and every loaded affine, the
alignment-step list passed to the piecewise stage is the hard-coded
single step `[('deform', {alignment_spacing: 0.4, smooth_sigmas: (0,),
control_point_spacing: 100.0, control_point_levels: (1,)})]`, with
overlap 0.3 and `rebalance_for_missing_neighbors` true; since these
hold for all arguments, no command-line flag can change them. -/
theorem hardcoded_alignment_steps (args : Args) (A : Mat) :
    (piecewise_call args A).steps
      = [("deform",
          { alignment_spacing := 0.4
            smooth_sigmas := [0]
            control_point_spacing := 100.0
            control_point_levels := [1] })] ∧
    (piecewise_call args A).overlap = 0.3 ∧
    (piecewise_call args A).rebalance_for_missing_neighbors = true :=
  ⟨rfl, rfl, rfl⟩

/-- Witness for C9 at concrete inputs. -/
theorem hardcoded_alignment_steps_witness :
    (piecewise_call exArgs [[1, 0], [0, 1]]).overlap = 0.3 ∧
    (piecewise_call exArgs [[1, 0], [0, 1]]).rebalance_for_missing_neighbors
      = true :=
  ⟨(hardcoded_alignment_steps exArgs [[1, 0], [0, 1]]).2.1,
   (hardcoded_alignment_steps exArgs [[1, 0], [0, 1]]).2.2⟩

/-- C10: the single `--spacing` array is passed as both the
fixed-volume and the moving-volume spacing to both distributed calls,
for every possible argument vector — so unequal spacings for the two
rounds cannot be expressed through the CLI. -/
theorem single_shared_spacing (args : Args) (A : Mat) :
    (piecewise_call args A).fix_spacing = args.spacing ∧
    (piecewise_call args A).mov_spacing = args.spacing ∧
    (apply_call args A).fix_spacing = args.spacing ∧
    (apply_call args A).mov_spacing = args.spacing :=
  ⟨rfl, rfl, rfl, rfl⟩

/-- Witness for C10 at concrete inputs. -/
theorem single_shared_spacing_witness :
    (piecewise_call exArgs [[1, 0], [0, 1]]).fix_spacing = [1, 1, 1] ∧
    (piecewise_call exArgs [[1, 0], [0, 1]]).mov_spacing = [1, 1, 1] :=
  ⟨(single_shared_spacing exArgs [[1, 0], [0, 1]]).1,
   (single_shared_spacing exArgs [[1, 0], [0, 1]]).2.1⟩
